import Mathlib

/-!
Verification of the plotly.py client module (plotly/plotly/plotly.py)
against its natural-language specification.

The Python module is shallowly embedded: Python dicts with string keys
become functions from strings to optional values, module-level mutable
state is passed explicitly, network responses are explicit parameters,
and raised exceptions become error results of an `Except`-like shape.
External collaborators that the spec declares out of scope (figure
validation, credential-file loading, the chunked transport) are modelled
from the spec where noted.
-/

set_option autoImplicit false

/-- A Python value as it appears in the JSON-shaped dicts this module
handles: strings and booleans (the option and response values the claims
touch are all of these shapes). -/
inductive PyVal where
  | str (s : String)
  | bool (b : Bool)
deriving DecidableEq, Repr

/-- A Python dict with string keys: a partial map from keys to values. -/
abbrev PyDict := String → Option PyVal

/-- The empty dict, `dict()`. -/
def PyDict.empty : PyDict := fun _ => none

/-- Python `d.update(e)`: every key of `e` overrides the entry of `d`. -/
def PyDict.update (d e : PyDict) : PyDict :=
  fun k => match e k with
    | some v => some v
    | none => d k

/-- Python `d[k] = v`. -/
def PyDict.insert (d : PyDict) (k : String) (v : PyVal) : PyDict :=
  fun x => if x = k then some v else d x

/-- Python `del d[k]`. -/
def PyDict.del (d : PyDict) (k : String) : PyDict :=
  fun x => if x = k then none else d x

/-- The module-level `_DEFAULT_PLOT_OPTIONS` dict. -/
def _DEFAULT_PLOT_OPTIONS : PyDict :=
  fun k =>
    if k = "filename" then some (.str "plot from API")
    else if k = "fileopt" then some (.str "new")
    else if k = "world_readable" then some (.bool true)
    else if k = "auto_open" then some (.bool true)
    else if k = "validate" then some (.bool true)
    else none

/-- The guard of the filename/fileopt special case in `_plot_option_logic`:
a filename was passed in the call kwargs while no `fileopt` appears in
either the module-level `_plot_options` or the call kwargs. -/
def fileoptSpecialCase (globals kwargs : PyDict) : Bool :=
  (kwargs "filename").isSome
    && (globals "fileopt").isNone
    && (kwargs "fileopt").isNone

/-- `_plot_option_logic`, generalized over the defaults dict: builds an
empty dict, updates it with the defaults, then the module-level
`_plot_options` (here `globals`), then the call kwargs, and finally forces
`fileopt` to `overwrite` under the special-case guard. -/
def plot_option_logic (defaults globals kwargs : PyDict) : PyDict :=
  let options := ((PyDict.empty.update defaults).update globals).update kwargs
  if fileoptSpecialCase globals kwargs then
    options.insert "fileopt" (.str "overwrite")
  else
    options

/-- `_plot_option_logic` as in the source: the defaults are the
module-level `_DEFAULT_PLOT_OPTIONS`. -/
def _plot_option_logic (globals kwargs : PyDict) : PyDict :=
  plot_option_logic _DEFAULT_PLOT_OPTIONS globals kwargs

/-- Exceptions raised by the module, as error results. -/
inductive PyError where
  | plotlyError (msg : PyVal)
  | plotlyAccountError (msg : PyVal)
  | plotlyLocalCredentialsError
  | inputError (msg : String)
  | keyError (key : String)
  | nameError (name : String)
  | valueError (msg : String)
  | httpError (status : Nat)
deriving DecidableEq, Repr

/-- A value stored in a data entry of a figure: either a scalar, on which
Python `len` raises `TypeError` (swallowed by the source), or a sized
sequence of length `n`. -/
inductive FigVal where
  | scalar
  | seq (n : Nat)
deriving DecidableEq, Repr

/-- One entry of the `data` list of a figure: a dict-like trace, modelled
as its list of key/value items. -/
abbrev Entry := List (String × FigVal)

/-- A figure dict: its `data` and `layout` keys may be present or absent. -/
structure Figure where
  data : Option (List Entry)
  layout : Option Entry
deriving DecidableEq, Repr

/-- The `figure_or_data` positional argument of `plot` and `image.get`:
dict-like, list-like, or neither. -/
inductive FigureOrData where
  | dict (f : Figure)
  | list (d : List Entry)
  | other
deriving DecidableEq, Repr

/-- An HTTP response from the plotly server: status code, content type,
whether the raw content is non-empty, and its body parsed as JSON. -/
structure HttpResponse where
  status : Nat
  contentType : Option String
  contentNonempty : Bool
  body : PyDict

/-- The message of the PlotlyError raised when `figure_or_data` is neither
dict-like nor list-like. -/
def figureOrDataMsg : String :=
  "The `figure_or_data` positional argument must be either `dict`-like or `list`-like."

/-- The big-data warning issued by `plot` for entries with more than 40000
points (opening sentences of the source message). -/
def bigDataWarning : String :=
  "Woah there! Look at all those points! Due to browser limitations, Plotly has a hard time graphing more than 500k data points for line charts, or 40k points for other types of charts."

/-- The first step of `plot` and `image.get`: a dict is taken as the
figure, a list becomes the `data` of a figure; anything else leaves the
local variable `figure` unbound (`none`). -/
def plotFigure : FigureOrData → Option Figure
  | .dict f => some f
  | .list d => some ⟨some d, none⟩
  | .other => none

/-- The warnings issued for one data entry: one big-data warning per value
whose `len` exceeds 40000 (`len` of a scalar raises TypeError, which the
source swallows). -/
def entryWarnings (e : Entry) : List PyVal :=
  e.filterMap fun kv =>
    match kv.2 with
    | .seq n => if n > 40000 then some (.str bigDataWarning) else none
    | .scalar => none

/-- All big-data warnings issued by the loop over `figure['data']`. -/
def dataWarnings (d : List Entry) : List PyVal :=
  (d.map entryWarnings).flatten

/-- Outcome of `_send_to_plotly`: the returned parsed response (or the
exception), the warnings relayed from the response, and whether the POST
to `/clientresp` was actually issued. -/
structure SendOutcome where
  result : Except PyError PyDict
  warnings : List PyVal
  sent : Bool

/-- `_get_session_username_and_key`: when the module-level `_credentials`
dict (`session`) holds both a username and an api key, use that pair;
otherwise, when the credentials file holds both, use that pair; otherwise
raise PlotlyLocalCredentialsError. (The credentials-file read itself is
modelled from the spec as the `fileCreds` parameter; the fallback logic
here is in the sources.) -/
def _get_session_username_and_key (session fileCreds : PyDict) :
    Except PyError (PyVal × PyVal) :=
  match session "username", session "api_key" with
  | some u, some a => .ok (u, a)
  | _, _ =>
    match fileCreds "username", fileCreds "api_key" with
    | some u, some a => .ok (u, a)
    | _, _ => .error .plotlyLocalCredentialsError

/-- `_send_to_plotly`: the session username and api key are resolved
(raising PlotlyLocalCredentialsError before any network traffic when no
usable pair exists), the request kwargs are built from the merged options
(a missing key raises KeyError, also before any network traffic), the
POST is issued, a 4xx/5xx status raises (`requests.raise_for_status`),
and otherwise the parsed JSON body is returned after relaying a non-empty
`warning` field through the warnings machinery. -/
def _send_to_plotly (_fig : Figure) (session fileCreds opts : PyDict)
    (resp : HttpResponse) : SendOutcome :=
  match _get_session_username_and_key session fileCreds with
  | .error e => ⟨.error e, [], false⟩
  | .ok _ =>
    match opts "filename", opts "fileopt", opts "world_readable" with
    | none, _, _ => ⟨.error (.keyError "filename"), [], false⟩
    | some _, none, _ => ⟨.error (.keyError "fileopt"), [], false⟩
    | some _, some _, none => ⟨.error (.keyError "world_readable"), [], false⟩
    | some _, some _, some _ =>
      if 400 ≤ resp.status then ⟨.error (.httpError resp.status), [], true⟩
      else
        let ws :=
          match resp.body "warning" with
          | some w => if w ≠ .str "" then [w] else []
          | none => []
        ⟨.ok resp.body, ws, true⟩

/-- Outcome of `plot`: the returned url (or the exception), the warnings
issued, and whether the figure was actually submitted to the server. -/
structure PlotOutcome where
  result : Except PyError PyVal
  warnings : List PyVal
  sent : Bool

/-- `plot`: coerce `figure_or_data`, validate (`tools.validate` is
modelled from the spec as out of scope and always succeeding), loop over
`figure['data']` issuing big-data warnings, merge the plot options, send
to plotly (which resolves the session credentials before posting), then
return the `url` field when the `error` field is the empty string and
raise PlotlyAccountError on a non-empty `error` field. `_open_url`
swallows every exception and is a no-op here. -/
def plot (figure_or_data : FigureOrData) (_validate : Bool)
    (kwargs globals session fileCreds : PyDict) (resp : HttpResponse) :
    PlotOutcome :=
  match plotFigure figure_or_data with
  | none => ⟨.error (.plotlyError (.str figureOrDataMsg)), [], false⟩
  | some fig =>
    match fig.data with
    | none => ⟨.error (.keyError "data"), [], false⟩
    | some d =>
      let ws := dataWarnings d
      let opts := _plot_option_logic globals kwargs
      let s := _send_to_plotly fig session fileCreds opts resp
      match s.result with
      | .error e => ⟨.error e, ws ++ s.warnings, s.sent⟩
      | .ok r =>
        match r "error" with
        | none => ⟨.error (.keyError "error"), ws ++ s.warnings, s.sent⟩
        | some v =>
          if v = .str "" then
            match opts "auto_open", r "url" with
            | none, _ => ⟨.error (.keyError "auto_open"), ws ++ s.warnings, s.sent⟩
            | some _, none => ⟨.error (.keyError "url"), ws ++ s.warnings, s.sent⟩
            | some _, some u => ⟨.ok u, ws ++ s.warnings, s.sent⟩
          else ⟨.error (.plotlyAccountError v), ws ++ s.warnings, s.sent⟩

/-- One newline-terminated JSON chunk written on the streaming connection:
the stream object (the trace with its `type` key ensured then deleted)
and the optional layout merged into it. Serialization to the JSON text is
abstracted: the claims only observe whether chunks were sent. -/
structure StreamMsg where
  obj : PyDict
  layout : Option PyDict

/-- The underlying `chunked_requests` connection held in the `_stream`
attribute. Modelled from the spec: the chunked transport itself is not in
the sources; the spec only requires that it can be closed. -/
structure ChunkedConn where
  closed : Bool
deriving DecidableEq, Repr

/-- The state of a `Stream` handle: its stream id, the `connected`
attribute, the `_stream` attribute (absent until `open()` is called), and
the transcript of chunks this handle has sent over the network. -/
structure StreamState where
  stream_id : String
  connected : Bool
  _stream : Option ChunkedConn
  sent : List StreamMsg

/-- `Stream.__init__`: stores the stream id and sets `connected` to
False; the `_stream` attribute is not assigned. -/
def StreamState.init (stream_id : String) : StreamState :=
  ⟨stream_id, false, none, []⟩

/-- `Stream.open`: assigns a fresh `chunked_requests.Stream` connection to
the `_stream` attribute. No other attribute is touched. -/
def StreamState.stream_open (st : StreamState) : StreamState :=
  { st with _stream := some ⟨false⟩ }

/-- Message of the PlotlyError raised by `write` before `open`. -/
def streamNotOpenWriteMsg : String :=
  "Stream has not been opened yet, cannot write to a closed connection. Call `open()` on the stream to open the stream."

/-- Message of the PlotlyError raised by `close` before `open`. -/
def streamNotOpenCloseMsg : String :=
  "Stream has not been opened yet."

/-- `Stream.write`: builds the stream object from the trace (defaulting
and then deleting its `type` key; `tools.validate` and
`tools.validate_stream` are modelled from the spec as out of scope and
always succeeding), merges the layout, and writes the chunk on the
`_stream` connection. If `_stream` was never assigned, the AttributeError
is turned into a PlotlyError and nothing is sent. The write on an
established connection is modelled from the spec as appending one chunk
to the transcript (the reconnect-on-status behavior does not change what
is observable here). -/
def StreamState.write (st : StreamState) (trace : PyDict)
    (layout : Option PyDict) : StreamState × Option PyError :=
  let so := PyDict.empty.update trace
  let so := if (so "type").isSome then so else so.insert "type" (.str "scatter")
  let so := so.del "type"
  match st._stream with
  | none => (st, some (.plotlyError (.str streamNotOpenWriteMsg)))
  | some c =>
    ({ st with _stream := some c, sent := st.sent ++ [⟨so, layout⟩] }, none)

/-- `Stream.close`: closes the `_stream` connection; if `_stream` was
never assigned, the AttributeError is turned into a PlotlyError. The
`_stream` attribute is not deleted by closing. -/
def StreamState.close (st : StreamState) : StreamState × Option PyError :=
  match st._stream with
  | none => (st, some (.plotlyError (.str streamNotOpenCloseMsg)))
  | some _ => ({ st with _stream := some ⟨true⟩ }, none)

/-- An operation invoked on a `Stream` handle. -/
inductive StreamOp where
  | op_open
  | op_write (trace : PyDict) (layout : Option PyDict)
  | op_close

/-- One operation applied to a stream state, with the exception it
raises, if any. -/
def streamStep (st : StreamState) (op : StreamOp) :
    StreamState × Option PyError :=
  match op with
  | .op_open => (st.stream_open, none)
  | .op_write trace layout => st.write trace layout
  | .op_close => st.close

/-- A sequence of operations applied to a stream state (exceptions do not
abort the sequence; they leave the state as the operation left it). -/
def streamRun (st : StreamState) (ops : List StreamOp) : StreamState :=
  ops.foldl (fun s op => (streamStep s op).1) st

/-- A named grid column with its cell data. -/
structure Column where
  name : String
  data : List PyVal
deriving DecidableEq, Repr

/-- A local Grid object. Modelled from the spec: the Grid class lives in
`plotly.grid_objs`, outside the sources; the spec glossary describes it
as a tabular resource composed of named columns, and the sources iterate
it, take its length and extend it like a sequence, so its Python
truthiness is non-emptiness of its column sequence. It also carries the
server-assigned id. -/
structure GridObj where
  id : String
  columns : List Column
deriving DecidableEq, Repr

/-- Whether a content type mentions JSON: Python
`json in headers[content-type]` substring test. -/
def containsJson (ct : String) : Bool :=
  (ct.splitOn "json").length ≥ 2

/-- The path component of a url. Modelled from the spec: Python stdlib
`urlparse(...).path`, which strips the scheme and network location. -/
def urlparse_path (u : String) : String :=
  match u.splitOn "://" with
  | [_, hostAndPath] =>
    match hostAndPath.splitOn "/" with
    | [] => ""
    | [_] => ""
    | _ :: ps => "/" ++ String.intercalate "/" ps
  | _ => u

/-- Owner and file id extracted from a grid url: the url path with `/~`
removed, split on `/`, first two pieces. `none` when there are fewer than
two pieces (Python unpacking then raises ValueError). -/
def gridUrlOwnerAndId (u : String) : Option (String × String) :=
  match ((urlparse_path u).replace "/~" "").splitOn "/" with
  | owner :: fid :: _ => some (owner, fid)
  | _ => none

/-- First line of the InputError message for a call that supplies none of
`grid`, `grid_url`, `grid_id`. -/
def missingGridArgMsg : String :=
  "One of the following keyword arguments is required: `grid`, `grid_id`, or `grid_url`."

/-- The names of the grid-identifying arguments that were supplied, in
the order `grid`, `grid_url`, `grid_id`. -/
def suppliedGridArgNames (grid : Option GridObj)
    (grid_url grid_id : Option String) : List String :=
  (if grid.isSome then ["grid"] else [])
    ++ (if grid_url.isSome then ["grid_url"] else [])
    ++ (if grid_id.isSome then ["grid_id"] else [])

/-- The InputError message for a call that supplies more than one of
`grid`, `grid_url`, `grid_id`. -/
def multipleGridArgsMsg (names : List String) : String :=
  "Only one of `grid`, `grid_id`, or `grid_url` is required. You supplied "
    ++ String.intercalate ", " names ++ ". "

/-- `grid_ops._parse_grid_id_args`: return the grid id from the single
non-None argument; raise InputError when zero or more than one argument
is supplied. -/
def _parse_grid_id_args (grid : Option GridObj)
    (grid_url grid_id : Option String) : Except PyError String :=
  match grid.map GridObj.id, grid_url, grid_id with
  | none, none, none => .error (.inputError missingGridArgMsg)
  | some gid, none, none => .ok gid
  | none, some u, none =>
    match gridUrlOwnerAndId u with
    | some (owner, fid) => .ok (owner ++ ":" ++ fid)
    | none => .error (.valueError "need more than 1 value to unpack")
  | none, none, some gid => .ok gid
  | _, _, _ =>
    .error (.inputError
      (multipleGridArgsMsg (suppliedGridArgNames grid grid_url grid_id)))

/-- The InputError message raised for a row whose length differs from the
column count of the grid. -/
def rowMismatchMsg (row_i row_len n_columns : Nat) : String :=
  "The number of entries in each row needs to equal the number of columns in the grid. Row "
    ++ toString row_i ++ " has " ++ toString row_len ++ " "
    ++ (if row_len = 1 then "entry" else "entries")
    ++ " but your grid has " ++ toString n_columns ++ " "
    ++ (if n_columns = 1 then "column" else "columns") ++ ". "

/-- The row-length check loop of `append_rows`: index and length of the
first row whose length differs from the column count, if any. -/
def findBadRowAux : List (List PyVal) → Nat → Nat → Option (Nat × Nat)
  | [], _, _ => none
  | r :: rs, n, i =>
    if r.length ≠ n then some (i, r.length) else findBadRowAux rs n (i + 1)

/-- The row-length check of `append_rows`, starting at row index 0. -/
def findBadRow (rows : List (List PyVal)) (n : Nat) : Option (Nat × Nat) :=
  findBadRowAux rows n 0

/-- Python `zip(*rows)`: the i-th output tuple collects the i-th element
of every row, truncating at the shortest row. -/
def zipStar (rows : List (List PyVal)) : List (List PyVal) :=
  match rows with
  | [] => []
  | r :: rs =>
    let m := rs.foldl (fun acc q => min acc q.length) r.length
    (List.range m).map fun i => rows.map fun q => q.getD i (.str "")

/-- The local mutation `append_rows` applies to its grid after a
successful upload: pad every column to the longest column length with
empty strings, then extend each column with the matching piece of
`zip(*rows)`. -/
def extendGridWithRows (g : GridObj) (rows : List (List PyVal)) : GridObj :=
  let longest := (g.columns.map fun c => c.data.length).foldl max 0
  let padded := g.columns.map fun c =>
    Column.mk c.name (c.data ++ List.replicate (longest - c.data.length) (.str ""))
  let exts := zipStar rows
  ⟨g.id, (padded.zipWith (fun c e => Column.mk c.name (c.data ++ e)) exts)
    ++ padded.drop exts.length⟩

/-- `grid_ops._response_handler`: raise for a 4xx/5xx status, then return
the parsed JSON body when the response carries non-empty JSON content and
None otherwise. (The relay of a server-side `warnings` list through the
warnings machinery is not modelled; no claim observes it.) -/
def grid_response_handler (resp : HttpResponse) :
    Except PyError (Option PyDict) :=
  if 400 ≤ resp.status then .error (.httpError resp.status)
  else
    let isJson :=
      match resp.contentType with
      | some ct => containsJson ct
      | none => false
    if isJson && resp.contentNonempty then .ok (some resp.body)
    else .ok none

/-- Outcome of a grid operation: the result (or exception), how many
network calls were issued, and the possibly mutated local grid. -/
structure RowsOutcome where
  result : Except PyError Unit
  network_calls : Nat
  grid : Option GridObj

/-- The tail of `append_rows` after the local checks: POST the rows (one
network call), handle the response, and on success extend a truthy local
grid with the new rows. -/
def sendRows (rows : List (List PyVal)) (grid : Option GridObj)
    (resp : HttpResponse) : RowsOutcome :=
  match grid_response_handler resp with
  | .error e => ⟨.error e, 1, grid⟩
  | .ok _ =>
    match grid with
    | some g =>
      if g.columns.isEmpty then ⟨.ok (), 1, some g⟩
      else ⟨.ok (), 1, some (extendGridWithRows g rows)⟩
    | none => ⟨.ok (), 1, none⟩

/-- `grid_ops.append_rows`: resolve the grid id, and only when a truthy
grid object was supplied (`if grid:` — false for None and for an empty
column sequence) check every row length against the grid column count,
raising InputError before any network call on a mismatch; then upload. -/
def append_rows (rows : List (List PyVal)) (grid : Option GridObj)
    (grid_url grid_id : Option String) (resp : HttpResponse) :
    RowsOutcome :=
  match _parse_grid_id_args grid grid_url grid_id with
  | .error e => ⟨.error e, 0, grid⟩
  | .ok _gid =>
    match grid with
    | some g =>
      if g.columns.isEmpty then sendRows rows (some g) resp
      else
        match findBadRow rows g.columns.length with
        | some p =>
          ⟨.error (.inputError (rowMismatchMsg p.1 p.2 g.columns.length)), 0,
            some g⟩
        | none => sendRows rows (some g) resp
    | none => sendRows rows none resp

/-- A reference into the Python heap: the index of an allocated dict. -/
abbrev Ref := Nat

/-- A fragment of the Python heap: the dict objects allocated so far, in
allocation order. Module-level mutable dicts such as `_plot_options` and
`_credentials` are cells in this heap, and aliasing is reference
equality. -/
structure PyHeap where
  cells : List PyDict

/-- The dict a reference points to. -/
def PyHeap.deref (h : PyHeap) (r : Ref) : PyDict :=
  h.cells.getD r PyDict.empty

/-- Replace the dict a reference points to (an in-place mutation of that
dict object). -/
def PyHeap.setRef (h : PyHeap) (r : Ref) (d : PyDict) : PyHeap :=
  ⟨h.cells.set r d⟩

/-- Allocate a fresh dict object and return its reference. -/
def PyHeap.alloc (h : PyHeap) (d : PyDict) : PyHeap × Ref :=
  (⟨h.cells ++ [d]⟩, h.cells.length)

/-- `get_plot_options`: returns `copy.copy(_plot_options)` — a freshly
allocated dict holding the current contents of the module-level
`_plot_options` cell. -/
def get_plot_options (h : PyHeap) (optRef : Ref) : PyHeap × Ref :=
  h.alloc (h.deref optRef)

/-- `get_credentials`: when the module-level `_credentials` cell holds
both a username and an api key, returns `copy.copy(_credentials)`;
otherwise returns the credentials read from the configuration file
(modelled from the spec: `tools.get_credentials_file` is out of scope and
yields a freshly allocated dict). -/
def get_credentials (h : PyHeap) (credRef : Ref) (fileCreds : PyDict) :
    PyHeap × Ref :=
  let c := h.deref credRef
  if ((c "username").isSome && (c "api_key").isSome) then h.alloc c
  else h.alloc fileCreds

/-- One in-place mutation of the dict object behind a reference. -/
def applyMut (h : PyHeap) (r : Ref) (f : PyDict → PyDict) : PyHeap :=
  h.setRef r (f (h.deref r))

/-- A sequence of in-place mutations of the dict object behind a
reference. -/
def applyMuts (h : PyHeap) (r : Ref) (fs : List (PyDict → PyDict)) :
    PyHeap :=
  fs.foldl (fun hh f => applyMut hh r f) h

/-- The image formats accepted by `image.get`. -/
def image_formats : List String := ["png", "svg", "jpeg", "pdf"]

/-- The binary content types `image.get` returns verbatim. -/
def image_content_types : List String :=
  ["image/png", "image/jpeg", "application/pdf", "image/svg+xml"]

/-- The PlotlyError message for an unsupported image format. -/
def invalidFormatMsg : String :=
  "Invalid format. This version of your Plotly-Python package currently only supports png, svg, jpeg, and pdf. Learn more about image exporting, and the currently supported file types here: https://plot.ly/python/static-image-export/"

/-- The PlotlyError message raised when an error response cannot be
parsed. -/
def notTranslatedMsg : String :=
  "The response from plotly could not be translated."

/-- `_validation_key_logic`: username and api key each fall back from the
module-level `_credentials` to the credentials file; if either is still
missing, raise PlotlyLocalCredentialsError. -/
def _validation_key_logic (session fileCreds : PyDict) :
    Except PyError (PyVal × PyVal) :=
  let username :=
    match session "username" with
    | some u => some u
    | none => fileCreds "username"
  let api_key :=
    match session "api_key" with
    | some a => some a
    | none => fileCreds "api_key"
  match username, api_key with
  | some u, some a => .ok (u, a)
  | _, _ => .error .plotlyLocalCredentialsError

/-- The response to an `image.get` request: status, content type, the
body parsed as JSON when it parses, and the raw content bytes. -/
structure ImageResponse where
  status : Nat
  contentType : Option String
  jsonBody : Option PyDict
  content : String

/-- What `image.get` returns: raw image bytes, the `image` field of a
JSON body, or Python None (the fall-through of its if/elif chain). -/
inductive ImageResult where
  | bytes (content : String)
  | value (v : PyVal)
  | pyNone
deriving Repr

/-- `image.get`: bind `figure` from a dict-like or list-like argument
(anything else leaves the local variable unbound), reject invalid
formats, resolve credentials, then build the payload — which reads the
local variable `figure` and raises NameError when it was never bound —
and finally interpret the response. -/
def image_get (figure_or_data : FigureOrData) (format : String)
    (session fileCreds : PyDict) (resp : ImageResponse) :
    Except PyError ImageResult :=
  let figure := plotFigure figure_or_data
  if (image_formats.contains format) = false then
    .error (.plotlyError (.str invalidFormatMsg))
  else
    match _validation_key_logic session fileCreds with
    | .error e => .error e
    | .ok _ =>
      match figure with
      | none => .error (.nameError "figure")
      | some _ =>
        if resp.status = 200 then
          match resp.contentType with
          | some ct =>
            if image_content_types.contains ct then .ok (.bytes resp.content)
            else if containsJson ct then
              match resp.jsonBody with
              | some body =>
                match body "image" with
                | some v => .ok (.value v)
                | none => .error (.keyError "image")
              | none => .error (.valueError "No JSON object could be decoded")
            else .ok .pyNone
          | none => .ok .pyNone
        else
          let return_data : Except PyError PyDict :=
            match resp.contentType with
            | some ct =>
              if containsJson ct then
                match resp.jsonBody with
                | some b => .ok b
                | none => .error (.plotlyError (.str notTranslatedMsg))
              else .ok (PyDict.empty.insert "error" (.str resp.content))
            | none => .ok (PyDict.empty.insert "error" (.str resp.content))
          match return_data with
          | .error e => .error e
          | .ok rd =>
            match rd "error" with
            | some v => .error (.plotlyError v)
            | none => .error (.keyError "error")

/-- C1: if the call kwargs contain `filename` and neither the module-level
overrides nor the call kwargs contain `fileopt`, then the merged options
map `fileopt` to `overwrite`, even though the built-in defaults map
`fileopt` to `new`. -/
theorem C1_fileopt_forced_overwrite (globals kwargs : PyDict)
    (hf : (kwargs "filename").isSome)
    (hg : globals "fileopt" = none)
    (hc : kwargs "fileopt" = none) :
    _plot_option_logic globals kwargs "fileopt" = some (.str "overwrite")
      ∧ _DEFAULT_PLOT_OPTIONS "fileopt" = some (.str "new") := by
  constructor
  · unfold _plot_option_logic plot_option_logic
    have hguard : fileoptSpecialCase globals kwargs = true := by
      simp [fileoptSpecialCase, hf, hg, hc]
    simp [hguard, PyDict.insert]
  · rfl

/-- Witness for C1 at a concrete globals/kwargs pair. -/
theorem C1_fileopt_forced_overwrite_witness :
    _plot_option_logic PyDict.empty
        (PyDict.empty.insert "filename" (.str "my plot")) "fileopt"
      = some (.str "overwrite")
      ∧ _DEFAULT_PLOT_OPTIONS "fileopt" = some (.str "new") :=
  C1_fileopt_forced_overwrite PyDict.empty
    (PyDict.empty.insert "filename" (.str "my plot"))
    (by decide) (by decide) (by decide)

/-- C2: away from the `fileopt` special case, the merged option mapping is
the key-wise precedence merge: call kwargs override the module-level
overrides, which override the defaults. -/
theorem C2_option_merge_precedence (defaults globals kwargs : PyDict)
    (k : String)
    (h : k ≠ "fileopt" ∨ fileoptSpecialCase globals kwargs = false) :
    plot_option_logic defaults globals kwargs k
      = match kwargs k with
        | some v => some v
        | none =>
          match globals k with
          | some v => some v
          | none => defaults k := by
  unfold plot_option_logic
  by_cases hb : fileoptSpecialCase globals kwargs
  · rcases h with hk | hf
    · simp only [hb, if_true, PyDict.insert, if_neg hk, PyDict.update,
        PyDict.empty]
      cases kwargs k <;> cases globals k <;> cases defaults k <;> rfl
    · rw [hb] at hf
      exact absurd hf (by simp)
  · simp only [Bool.not_eq_true] at hb
    simp only [hb, Bool.false_eq_true, if_false, PyDict.update, PyDict.empty]
    cases kwargs k <;> cases globals k <;> cases defaults k <;> rfl

/-- Witness for C2 at a concrete triple of dicts and a concrete key. -/
theorem C2_option_merge_precedence_witness :
    plot_option_logic _DEFAULT_PLOT_OPTIONS
        (PyDict.empty.insert "world_readable" (.bool false))
        (PyDict.empty.insert "filename" (.str "f")) "world_readable"
      = some (.bool false) := by
  have h := C2_option_merge_precedence _DEFAULT_PLOT_OPTIONS
    (PyDict.empty.insert "world_readable" (.bool false))
    (PyDict.empty.insert "filename" (.str "f")) "world_readable"
    (Or.inl (by decide))
  rw [h]
  decide

/-- Every key present in the defaults is present in the merged options,
whatever the overrides are. -/
theorem plot_option_logic_isSome (globals kwargs : PyDict) (k : String)
    (hk : (_DEFAULT_PLOT_OPTIONS k).isSome) :
    (_plot_option_logic globals kwargs k).isSome := by
  unfold _plot_option_logic plot_option_logic
  by_cases hb : fileoptSpecialCase globals kwargs
  · simp only [hb, if_true, PyDict.insert]
    by_cases hkf : k = "fileopt"
    · simp [hkf]
    · simp only [if_neg hkf, PyDict.update, PyDict.empty]
      cases kwargs k <;> cases globals k <;> cases hd : _DEFAULT_PLOT_OPTIONS k
        <;> simp_all
  · simp only [Bool.not_eq_true] at hb
    simp only [hb, Bool.false_eq_true, if_false, PyDict.update, PyDict.empty]
    cases kwargs k <;> cases globals k <;> cases hd : _DEFAULT_PLOT_OPTIONS k
      <;> simp_all

/-- C4 counterexample: a submission (with usable credentials) whose 2xx
response body has an `error` field equal to the empty string but no `url`
field makes `plot` raise a KeyError instead of returning a url. -/
theorem C4_counterexample_missing_url :
    (plot (.list []) true PyDict.empty PyDict.empty
        ((PyDict.empty.insert "username" (.str "u")).insert "api_key"
          (.str "k"))
        PyDict.empty
        ⟨200, none, true,
          fun k => if k = "error" then some (.str "") else none⟩).result
      = .error (.keyError "url") := by
  rfl

/-- C4 (amended): for every submission that reaches the server (so the
session credentials resolved), if the response has a success status and
its JSON body maps `error` to the empty string and has a `url` field,
then `plot` returns that url value and does not raise. -/
theorem C4_plot_success_returns_url (fod : FigureOrData) (fig : Figure)
    (d : List Entry) (validate : Bool)
    (kwargs globals session fileCreds : PyDict)
    (resp : HttpResponse) (u : PyVal)
    (h1 : plotFigure fod = some fig) (h2 : fig.data = some d)
    (hcred : ∃ p, _get_session_username_and_key session fileCreds
      = Except.ok p)
    (hs : resp.status < 400)
    (he : resp.body "error" = some (.str ""))
    (hu : resp.body "url" = some u) :
    (plot fod validate kwargs globals session fileCreds resp).result
      = .ok u := by
  obtain ⟨p, hp⟩ := hcred
  obtain ⟨fv, hfv⟩ := Option.isSome_iff_exists.mp
    (plot_option_logic_isSome globals kwargs "filename" (by decide))
  obtain ⟨ov, hov⟩ := Option.isSome_iff_exists.mp
    (plot_option_logic_isSome globals kwargs "fileopt" (by decide))
  obtain ⟨wv, hwv⟩ := Option.isSome_iff_exists.mp
    (plot_option_logic_isSome globals kwargs "world_readable" (by decide))
  obtain ⟨av, hav⟩ := Option.isSome_iff_exists.mp
    (plot_option_logic_isSome globals kwargs "auto_open" (by decide))
  unfold plot _send_to_plotly
  simp only [h1, h2, hp, hfv, hov, hwv, hav, he, hu,
    if_neg (Nat.not_le.mpr hs), if_pos rfl]
  simp

/-- Witness for the amended C4 at a concrete submission and response. -/
theorem C4_plot_success_returns_url_witness :
    (plot (.list []) true PyDict.empty PyDict.empty
        ((PyDict.empty.insert "username" (.str "u")).insert "api_key"
          (.str "k"))
        PyDict.empty
        ⟨200, none, true,
          fun k =>
            if k = "error" then some (.str "")
            else if k = "url" then some (.str "https://plot.ly/~u/1")
            else none⟩).result
      = .ok (.str "https://plot.ly/~u/1") :=
  C4_plot_success_returns_url (.list []) ⟨some [], none⟩ [] true
    PyDict.empty PyDict.empty
    ((PyDict.empty.insert "username" (.str "u")).insert "api_key" (.str "k"))
    PyDict.empty _ _
    (by decide) (by decide) ⟨(.str "u", .str "k"), rfl⟩
    (by decide) (by decide) (by decide)

/-- C5: for every submission that reaches the server (so the session
credentials resolved), if the response has a success status and its JSON
body maps `error` to anything other than the empty string, `plot` raises
PlotlyAccountError carrying exactly that error value. -/
theorem C5_plot_error_raises_account_error (fod : FigureOrData)
    (fig : Figure) (d : List Entry) (validate : Bool)
    (kwargs globals session fileCreds : PyDict) (resp : HttpResponse)
    (v : PyVal)
    (h1 : plotFigure fod = some fig) (h2 : fig.data = some d)
    (hcred : ∃ p, _get_session_username_and_key session fileCreds
      = Except.ok p)
    (hs : resp.status < 400)
    (he : resp.body "error" = some v) (hv : v ≠ .str "") :
    (plot fod validate kwargs globals session fileCreds resp).result
      = .error (.plotlyAccountError v) := by
  obtain ⟨p, hp⟩ := hcred
  obtain ⟨fv, hfv⟩ := Option.isSome_iff_exists.mp
    (plot_option_logic_isSome globals kwargs "filename" (by decide))
  obtain ⟨ov, hov⟩ := Option.isSome_iff_exists.mp
    (plot_option_logic_isSome globals kwargs "fileopt" (by decide))
  obtain ⟨wv, hwv⟩ := Option.isSome_iff_exists.mp
    (plot_option_logic_isSome globals kwargs "world_readable" (by decide))
  unfold plot _send_to_plotly
  simp only [h1, h2, hp, hfv, hov, hwv, he,
    if_neg (Nat.not_le.mpr hs), if_neg hv]

/-- Witness for C5 at a concrete submission and response. -/
theorem C5_plot_error_raises_account_error_witness :
    (plot (.list []) true PyDict.empty PyDict.empty
        ((PyDict.empty.insert "username" (.str "u")).insert "api_key"
          (.str "k"))
        PyDict.empty
        ⟨200, none, true,
          fun k => if k = "error" then some (.str "bad key") else none⟩).result
      = .error (.plotlyAccountError (.str "bad key")) :=
  C5_plot_error_raises_account_error (.list []) ⟨some [], none⟩ [] true
    PyDict.empty PyDict.empty
    ((PyDict.empty.insert "username" (.str "u")).insert "api_key" (.str "k"))
    PyDict.empty _ _
    (by decide) (by decide) ⟨(.str "u", .str "k"), rfl⟩
    (by decide) (by decide) (by decide)

/-- C7 counterexample: with no usable credentials anywhere, a submission
with an oversized data entry still gets the big-data warning, but the
call IS interrupted before the POST: `_send_to_plotly` raises
PlotlyLocalCredentialsError and nothing reaches the server. -/
theorem C7_counterexample_no_credentials :
    PyVal.str bigDataWarning ∈
        (plot (.list [[("x", FigVal.seq 40001)]]) true PyDict.empty
          PyDict.empty PyDict.empty PyDict.empty
          ⟨200, none, true, fun _ => none⟩).warnings
      ∧ (plot (.list [[("x", FigVal.seq 40001)]]) true PyDict.empty
          PyDict.empty PyDict.empty PyDict.empty
          ⟨200, none, true, fun _ => none⟩).sent = false
      ∧ (plot (.list [[("x", FigVal.seq 40001)]]) true PyDict.empty
          PyDict.empty PyDict.empty PyDict.empty
          ⟨200, none, true, fun _ => none⟩).result
        = .error .plotlyLocalCredentialsError :=
  ⟨List.Mem.head _, rfl, rfl⟩

/-- C7 (amended): when the session credentials resolve, a data-entry
value longer than 40000 makes `plot` issue the big-data warning but does
not interrupt the call: the figure is still submitted to the server.
(Without usable credentials the warning is still issued, but
PlotlyLocalCredentialsError interrupts the call before the POST.) -/
theorem C7_big_data_warning_nonfatal (fod : FigureOrData) (fig : Figure)
    (d : List Entry) (entry : Entry) (k : String) (n : Nat)
    (validate : Bool) (kwargs globals session fileCreds : PyDict)
    (resp : HttpResponse)
    (h1 : plotFigure fod = some fig) (h2 : fig.data = some d)
    (hcred : ∃ p, _get_session_username_and_key session fileCreds
      = Except.ok p)
    (hentry : entry ∈ d) (hkv : (k, FigVal.seq n) ∈ entry)
    (hn : 40000 < n) :
    PyVal.str bigDataWarning ∈
        (plot fod validate kwargs globals session fileCreds resp).warnings
      ∧ (plot fod validate kwargs globals session fileCreds resp).sent
        = true := by
  obtain ⟨p, hp⟩ := hcred
  obtain ⟨fv, hfv⟩ := Option.isSome_iff_exists.mp
    (plot_option_logic_isSome globals kwargs "filename" (by decide))
  obtain ⟨ov, hov⟩ := Option.isSome_iff_exists.mp
    (plot_option_logic_isSome globals kwargs "fileopt" (by decide))
  obtain ⟨wv, hwv⟩ := Option.isSome_iff_exists.mp
    (plot_option_logic_isSome globals kwargs "world_readable" (by decide))
  have hw : PyVal.str bigDataWarning ∈ dataWarnings d := by
    unfold dataWarnings
    rw [List.mem_flatten]
    refine ⟨entryWarnings entry, List.mem_map_of_mem _ hentry, ?_⟩
    unfold entryWarnings
    rw [List.mem_filterMap]
    exact ⟨(k, .seq n), hkv, by simp [hn]⟩
  have hsent :
      (_send_to_plotly fig session fileCreds
          (_plot_option_logic globals kwargs) resp).sent = true := by
    unfold _send_to_plotly
    simp only [hp, hfv, hov, hwv]
    split <;> rfl
  unfold plot
  simp only [h1, h2]
  split
  · exact ⟨List.mem_append_left _ hw, hsent⟩
  · split
    · exact ⟨List.mem_append_left _ hw, hsent⟩
    · split
      · split
        · exact ⟨List.mem_append_left _ hw, hsent⟩
        · exact ⟨List.mem_append_left _ hw, hsent⟩
        · exact ⟨List.mem_append_left _ hw, hsent⟩
      · exact ⟨List.mem_append_left _ hw, hsent⟩

/-- Witness for the amended C7 at a concrete credentialed oversized
submission. -/
theorem C7_big_data_warning_nonfatal_witness :
    PyVal.str bigDataWarning ∈
        (plot (.list [[("x", FigVal.seq 40001)]]) true PyDict.empty
          PyDict.empty
          ((PyDict.empty.insert "username" (.str "u")).insert "api_key"
            (.str "k"))
          PyDict.empty ⟨200, none, true, fun _ => none⟩).warnings
      ∧ (plot (.list [[("x", FigVal.seq 40001)]]) true PyDict.empty
          PyDict.empty
          ((PyDict.empty.insert "username" (.str "u")).insert "api_key"
            (.str "k"))
          PyDict.empty ⟨200, none, true, fun _ => none⟩).sent = true :=
  C7_big_data_warning_nonfatal (.list [[("x", FigVal.seq 40001)]])
    ⟨some [[("x", FigVal.seq 40001)]], none⟩ [[("x", FigVal.seq 40001)]]
    [("x", FigVal.seq 40001)] "x" 40001 true PyDict.empty PyDict.empty
    ((PyDict.empty.insert "username" (.str "u")).insert "api_key" (.str "k"))
    PyDict.empty ⟨200, none, true, fun _ => none⟩
    (by decide) (by decide) ⟨(.str "u", .str "k"), rfl⟩
    (by decide) (by decide) (by decide)

/-- Running a sequence of operations that never includes `open()` leaves
the stream state untouched: failing writes and closes change nothing. -/
theorem streamRun_no_open (ops : List StreamOp) (st : StreamState)
    (hs : st._stream = none) (h : StreamOp.op_open ∉ ops) :
    streamRun st ops = st := by
  induction ops generalizing st with
  | nil => rfl
  | cons op rest ih =>
    have hop : op ≠ .op_open := fun he => h (he ▸ List.mem_cons_self _ _)
    have hrest : StreamOp.op_open ∉ rest :=
      fun hm => h (List.mem_cons_of_mem _ hm)
    have hstep : (streamStep st op).1 = st := by
      cases op with
      | op_open => exact absurd rfl hop
      | op_write t l => simp [streamStep, StreamState.write, hs]
      | op_close => simp [streamStep, StreamState.close, hs]
    calc streamRun st (op :: rest)
        = streamRun (streamStep st op).1 rest := rfl
      _ = st := by rw [hstep]; exact ih st hs hrest

/-- C3: on a Stream handle on which `open()` has never been called,
`write` raises the stream-not-open PlotlyError and sends nothing, and
`close` raises its stream-not-open PlotlyError and sends nothing. -/
theorem C3_stream_write_close_before_open (sid : String)
    (ops : List StreamOp) (trace : PyDict) (layout : Option PyDict)
    (h : StreamOp.op_open ∉ ops) :
    ((streamRun (StreamState.init sid) ops).write trace layout).2
        = some (.plotlyError (.str streamNotOpenWriteMsg))
      ∧ ((streamRun (StreamState.init sid) ops).write trace layout).1.sent
        = (streamRun (StreamState.init sid) ops).sent
      ∧ (streamRun (StreamState.init sid) ops).close.2
        = some (.plotlyError (.str streamNotOpenCloseMsg))
      ∧ (streamRun (StreamState.init sid) ops).close.1.sent
        = (streamRun (StreamState.init sid) ops).sent := by
  have hrun : streamRun (StreamState.init sid) ops = StreamState.init sid :=
    streamRun_no_open ops _ rfl h
  rw [hrun]
  exact ⟨rfl, rfl, rfl, rfl⟩

/-- Witness for C3 on a freshly constructed handle. -/
theorem C3_stream_write_close_before_open_witness :
    ((streamRun (StreamState.init "token") []).write PyDict.empty none).2
        = some (.plotlyError (.str streamNotOpenWriteMsg))
      ∧ ((streamRun (StreamState.init "token") []).write PyDict.empty
          none).1.sent = (streamRun (StreamState.init "token") []).sent
      ∧ (streamRun (StreamState.init "token") []).close.2
        = some (.plotlyError (.str streamNotOpenCloseMsg))
      ∧ (streamRun (StreamState.init "token") []).close.1.sent
        = (streamRun (StreamState.init "token") []).sent :=
  C3_stream_write_close_before_open "token" [] PyDict.empty none (by simp)

/-- No stream operation ever changes the `connected` attribute. -/
theorem streamRun_connected (ops : List StreamOp) (st : StreamState) :
    (streamRun st ops).connected = st.connected := by
  induction ops generalizing st with
  | nil => rfl
  | cons op rest ih =>
    have hstep : ((streamStep st op).1).connected = st.connected := by
      cases op with
      | op_open => rfl
      | op_write t l =>
        simp only [streamStep, StreamState.write]
        rcases hs : st._stream with _ | c <;> simp [hs]
      | op_close =>
        simp only [streamStep, StreamState.close]
        rcases hs : st._stream with _ | c <;> simp [hs]
    calc (streamRun st (op :: rest)).connected
        = (streamRun (streamStep st op).1 rest).connected := rfl
      _ = ((streamStep st op).1).connected := ih _
      _ = st.connected := hstep

/-- C9: `connected` is False at construction and no sequence of open,
write and close operations ever makes it True. -/
theorem C9_stream_connected_never_true (sid : String)
    (ops : List StreamOp) :
    (StreamState.init sid).connected = false
      ∧ (streamRun (StreamState.init sid) ops).connected = false :=
  ⟨rfl, (streamRun_connected ops _).trans rfl⟩

/-- If some row has the wrong length, the row-length check loop finds a
first offending row. -/
theorem findBadRowAux_isSome (rows : List (List PyVal)) (n : Nat)
    (h : ∃ r ∈ rows, r.length ≠ n) :
    ∀ i, (findBadRowAux rows n i).isSome := by
  induction rows with
  | nil =>
    rcases h with ⟨r, hr, _⟩
    exact absurd hr (List.not_mem_nil r)
  | cons a rest ih =>
    intro i
    by_cases ha : a.length = n
    · have hrest : ∃ r ∈ rest, r.length ≠ n := by
        rcases h with ⟨r, hr, hlen⟩
        rcases List.mem_cons.mp hr with rfl | hr2
        · exact absurd ha hlen
        · exact ⟨r, hr2, hlen⟩
      simpa [findBadRowAux, ha] using ih hrest (i + 1)
    · simp [findBadRowAux, ha]

/-- C6 counterexample: `append_rows` on a grid object with no columns and
a one-entry row (its length 1 differs from the column count 0) succeeds
and issues its network call, because `if grid:` is false for an empty
sequence and the length check is skipped. -/
theorem C6_counterexample_empty_grid :
    (append_rows [[PyVal.str "a"]] (some ⟨"chris:3043", []⟩) none none
          ⟨200, none, false, fun _ => none⟩).result = .ok ()
      ∧ (append_rows [[PyVal.str "a"]] (some ⟨"chris:3043", []⟩) none none
          ⟨200, none, false, fun _ => none⟩).network_calls = 1
      ∧ [PyVal.str "a"].length ≠ (GridObj.mk "chris:3043" []).columns.length :=
  ⟨rfl, rfl, by decide⟩

/-- C6 (amended): whenever `append_rows` is given a grid object with at
least one column and some row whose length differs from the grid column
count, the call fails with a local InputError and no network call is
made (whatever else is supplied alongside). -/
theorem C6_append_rows_mismatch_local_error (rows : List (List PyVal))
    (g : GridObj) (grid_url grid_id : Option String) (resp : HttpResponse)
    (hne : g.columns ≠ [])
    (hbad : ∃ r ∈ rows, r.length ≠ g.columns.length) :
    (∃ m, (append_rows rows (some g) grid_url grid_id resp).result
        = .error (.inputError m))
      ∧ (append_rows rows (some g) grid_url grid_id resp).network_calls
        = 0 := by
  rcases grid_url with _ | u
  · rcases grid_id with _ | i
    · have hempty : g.columns.isEmpty = false := by
        simpa [List.isEmpty_iff] using hne
      obtain ⟨p, hp⟩ := Option.isSome_iff_exists.mp
        (findBadRowAux_isSome rows g.columns.length hbad 0)
      simp only [append_rows, _parse_grid_id_args, Option.map_some',
        hempty, Bool.false_eq_true, if_false, findBadRow, hp]
      exact ⟨⟨rowMismatchMsg p.1 p.2 g.columns.length, rfl⟩, trivial⟩
    · simp only [append_rows, _parse_grid_id_args, Option.map_some']
      exact ⟨⟨multipleGridArgsMsg
        (suppliedGridArgNames (some g) none (some i)), rfl⟩, trivial⟩
  · rcases grid_id with _ | i
    · simp only [append_rows, _parse_grid_id_args, Option.map_some']
      exact ⟨⟨multipleGridArgsMsg
        (suppliedGridArgNames (some g) (some u) none), rfl⟩, trivial⟩
    · simp only [append_rows, _parse_grid_id_args, Option.map_some']
      exact ⟨⟨multipleGridArgsMsg
        (suppliedGridArgNames (some g) (some u) (some i)), rfl⟩, trivial⟩

/-- Witness for the amended C6 at a concrete mismatched call. -/
theorem C6_append_rows_mismatch_local_error_witness :
    (∃ m, (append_rows [[PyVal.str "a", PyVal.str "b"]]
        (some ⟨"chris:3043", [⟨"c1", []⟩]⟩) none none
        ⟨200, none, false, fun _ => none⟩).result
        = .error (.inputError m))
      ∧ (append_rows [[PyVal.str "a", PyVal.str "b"]]
          (some ⟨"chris:3043", [⟨"c1", []⟩]⟩) none none
          ⟨200, none, false, fun _ => none⟩).network_calls = 0 :=
  C6_append_rows_mismatch_local_error [[PyVal.str "a", PyVal.str "b"]]
    ⟨"chris:3043", [⟨"c1", []⟩]⟩ none none
    ⟨200, none, false, fun _ => none⟩
    (by decide) ⟨[PyVal.str "a", PyVal.str "b"], by decide, by decide⟩

/-- Writing through a reference leaves every other heap cell unchanged. -/
theorem PyHeap.deref_setRef_ne (h : PyHeap) (r s : Ref) (d : PyDict)
    (hne : s ≠ r) : (h.setRef r d).deref s = h.deref s := by
  unfold PyHeap.setRef PyHeap.deref
  rw [List.getD_eq_getElem?_getD, List.getD_eq_getElem?_getD,
    List.getElem?_set_ne (Ne.symm hne)]

/-- A mutation sequence applied at one reference leaves every other heap
cell unchanged. -/
theorem deref_applyMuts_ne (fs : List (PyDict → PyDict)) (h : PyHeap)
    (r s : Ref) (hne : s ≠ r) :
    (applyMuts h r fs).deref s = h.deref s := by
  induction fs generalizing h with
  | nil => rfl
  | cons f rest ih =>
    calc (applyMuts h r (f :: rest)).deref s
        = (applyMuts (applyMut h r f) r rest).deref s := rfl
      _ = (applyMut h r f).deref s := ih _
      _ = h.deref s := PyHeap.deref_setRef_ne _ _ _ _ hne

/-- Allocation leaves every previously valid heap cell unchanged. -/
theorem PyHeap.deref_alloc_lt (h : PyHeap) (d : PyDict) (s : Ref)
    (hs : s < h.cells.length) : (h.alloc d).1.deref s = h.deref s := by
  unfold PyHeap.alloc PyHeap.deref
  rw [List.getD_eq_getElem?_getD, List.getD_eq_getElem?_getD,
    List.getElem?_append_left hs]

/-- C8: `get_plot_options` and `get_credentials` return freshly allocated
copies: however the returned dict is mutated afterwards, the module-level
`_plot_options` and `_credentials` cells still hold their old contents. -/
theorem C8_getters_return_copies (h : PyHeap) (optRef credRef : Ref)
    (fileCreds : PyDict) (fs gs : List (PyDict → PyDict))
    (ho : optRef < h.cells.length) (hc : credRef < h.cells.length) :
    (applyMuts (get_plot_options h optRef).1 (get_plot_options h optRef).2
        fs).deref optRef = h.deref optRef
      ∧ (applyMuts (get_credentials h credRef fileCreds).1
          (get_credentials h credRef fileCreds).2 gs).deref credRef
        = h.deref credRef := by
  have hne1 : optRef ≠ (get_plot_options h optRef).2 := Nat.ne_of_lt ho
  have hne2 : credRef ≠ h.cells.length := Nat.ne_of_lt hc
  constructor
  · rw [deref_applyMuts_ne fs _ _ _ hne1]
    exact PyHeap.deref_alloc_lt h _ optRef ho
  · unfold get_credentials
    by_cases hcred : (((h.deref credRef) "username").isSome
        && ((h.deref credRef) "api_key").isSome) = true
    · simp only [hcred, if_true]
      rw [deref_applyMuts_ne gs _ _ _
        (show credRef ≠ (h.alloc (h.deref credRef)).2 from hne2)]
      exact PyHeap.deref_alloc_lt h _ credRef hc
    · simp only [hcred, Bool.false_eq_true, if_false]
      rw [deref_applyMuts_ne gs _ _ _
        (show credRef ≠ (h.alloc fileCreds).2 from hne2)]
      exact PyHeap.deref_alloc_lt h _ credRef hc

/-- Witness for C8 on a concrete two-cell heap with concrete mutations. -/
theorem C8_getters_return_copies_witness :
    (applyMuts (get_plot_options ⟨[PyDict.empty.insert "filename" (.str "f"),
          PyDict.empty]⟩ 0).1
        (get_plot_options ⟨[PyDict.empty.insert "filename" (.str "f"),
          PyDict.empty]⟩ 0).2
        [fun d => d.insert "filename" (.str "changed")]).deref 0
      = (⟨[PyDict.empty.insert "filename" (.str "f"), PyDict.empty]⟩ :
          PyHeap).deref 0
    ∧ (applyMuts (get_credentials ⟨[PyDict.empty.insert "filename" (.str "f"),
          PyDict.empty]⟩ 1 PyDict.empty).1
        (get_credentials ⟨[PyDict.empty.insert "filename" (.str "f"),
          PyDict.empty]⟩ 1 PyDict.empty).2
        [fun d => d.insert "username" (.str "evil")]).deref 1
      = (⟨[PyDict.empty.insert "filename" (.str "f"), PyDict.empty]⟩ :
          PyHeap).deref 1 :=
  C8_getters_return_copies
    ⟨[PyDict.empty.insert "filename" (.str "f"), PyDict.empty]⟩ 0 1
    PyDict.empty [fun d => d.insert "filename" (.str "changed")]
    [fun d => d.insert "username" (.str "evil")]
    (by decide) (by decide)

/-- C10: on a `figure_or_data` argument that is neither dict-like nor
list-like, with a valid format and usable credentials, `image.get` raises
a NameError for the unbound local variable `figure` instead of a typed
PlotlyError. -/
theorem C10_image_get_unbound_figure_name_error :
    image_get .other "png"
        ((PyDict.empty.insert "username" (.str "u")).insert "api_key"
          (.str "k"))
        PyDict.empty ⟨200, some "image/png", none, "rawbytes"⟩
      = .error (.nameError "figure") := by
  rfl
